import Mathlib

/-!
# Verification of the tick journal codec, assembler and recorder

Shallow embedding of `record_tick.py`, `transform_tick_data.py` and
`load_tick_data.py` from the `vnpy_TickDataRecorder` repository, with
theorems settling the specification claims about the journal line codec,
the sanitizer, the session-date resolver, the tick assembler and the
journal writer.

Modelling conventions:
* Python `str` is Lean `String`; the string primitives used by the source
  (`str.replace`, `str.split`) are embedded as fuel-based structural
  recursions over `List Char` with Python's leftmost, non-overlapping
  semantics, so that concrete runs reduce in the kernel.
* Python `dict` (string keys, insertion ordered, unique keys) is an
  association list `List (String × α)`; assignment `d[k] = v` updates the
  existing entry in place or appends, lookup takes the first (unique) match.
* Python `float` is modelled as `ℚ`.  Decimal literals are parsed exactly
  as the rational they denote (binary64 rounding is not modelled); the
  `sys.float_info.max` sentinel is the exact rational value
  `(2^53 - 1) * 2^971` of that double, and concrete tests denote it by its
  exact 309-digit decimal expansion (whose Python `float` is exactly
  `sys.float_info.max`).
* Fallible Python code (KeyError / ValueError) is embedded in
  `Except String`; an early `return` of no value is `Option.none`.
-/

deriving instance DecidableEq for Except

namespace TickRec

/-! ## Python string primitives -/

/-- One scan step of Python `str.replace(pat, rep)`: leftmost,
non-overlapping replacement.  `fuel` bounds the number of consumed
characters (callers pass the input length), keeping the recursion
structural so the kernel can evaluate it. -/
def replaceAux (pat rep : List Char) : Nat → List Char → List Char
  | _, [] => []
  | 0, xs => xs
  | fuel + 1, x :: xs =>
    if pat.isPrefixOf (x :: xs) then
      rep ++ replaceAux pat rep fuel (List.drop pat.length (x :: xs))
    else
      x :: replaceAux pat rep fuel xs

/-- Python `s.replace(pat, rep)` (for the non-empty patterns the source
uses; an empty pattern returns the input unchanged). -/
def pyReplace (s pat rep : String) : String :=
  if pat.data = [] then s
  else String.mk (replaceAux pat.data rep.data s.data.length s.data)

/-- One scan step of Python `str.split(sep)` with non-empty `sep`:
leftmost, non-overlapping splitting, accumulating the current segment in
reverse in `cur`.  `fuel` bounds the number of consumed characters. -/
def splitOnAux (sep : List Char) : Nat → List Char → List Char → List (List Char)
  | _, [], cur => [cur.reverse]
  | 0, xs, cur => [cur.reverse ++ xs]
  | fuel + 1, x :: xs, cur =>
    if sep.isPrefixOf (x :: xs) then
      cur.reverse :: splitOnAux sep fuel (List.drop sep.length (x :: xs)) []
    else
      splitOnAux sep fuel xs (x :: cur)

/-- Python `s.split(sep)` for a non-empty separator `sep`. -/
def pySplit (s sep : String) : List String :=
  if sep.data = [] then [s]
  else (splitOnAux sep.data s.data.length s.data []).map String.mk

/-- Containment test `hasInfix sep xs`: does `sep` occur as a contiguous run inside `xs`?
(Python `sep in xs`.) -/
def hasInfix (sep : List Char) : List Char → Bool
  | [] => sep.isEmpty
  | x :: xs => sep.isPrefixOf (x :: xs) || hasInfix sep xs

/-- String-level wrapper for `hasInfix`. -/
def strHasInfix (s sub : String) : Bool := hasInfix sub.data s.data

/-! ## Python dict primitives

A Python `dict` with string keys is an insertion-ordered association list
with unique keys. -/

/-- Python `d.get(k)` / `d[k]` lookup: first (unique) matching entry. -/
def dictGet {α : Type} (d : List (String × α)) (k : String) : Option α :=
  match d with
  | [] => none
  | (k', v) :: rest => if k' = k then some v else dictGet rest k

/-- Python `d[k] = v`: overwrite the existing entry in place (keeping its
position) or append a new one. -/
def dictSet {α : Type} (d : List (String × α)) (k : String) (v : α) :
    List (String × α) :=
  match d with
  | [] => [(k, v)]
  | (k', v') :: rest =>
    if k' = k then (k, v) :: rest else (k', v') :: dictSet rest k v

/-- Python truthiness of `d.get(k, None)` for a string-valued dict:
`None` and the empty string are falsy, every other string truthy. -/
def truthyStr : Option String → Bool
  | none => false
  | some s => s != ""

/-! ## Python float model -/

/-- Numeric value of a digit string (most significant first). -/
def natOfDigits (cs : List Char) : Nat :=
  cs.foldl (fun a c => a * 10 + (c.toNat - 48)) 0

/-- The value of `sys.float_info.max` — the largest binary64 double,
`(2^53 - 1) * 2^971` — as an exact rational, written out as its exact
309-digit decimal expansion. -/
def floatMax : ℚ :=
  179769313486231570814527423731704356798070567525844996598917476803157260780028538760589558632766878171540458953514382464234321326889464182768467546703537516986049910576551282076245490090389328944075868508455133942304583236903222948165808559332123348274797826204144723168738177180919299881250404026184124858368

/-- Embedding of `_adjust_price` (defined identically in
`transform_tick_data.py` and `load_tick_data.py`): a price equal to the
`sys.float_info.max` sentinel is treated as invalid and mapped to `0`;
everything else passes through. -/
def adjust_price (price : ℚ) : ℚ :=
  if price = floatMax then 0 else price

/-- The exact rational `(-1)^neg * n / den` built from core `Rat`
primitives (kept away from the algebraic type-class layer so that the
kernel evaluates it). -/
def signedRat (neg : Bool) (n den : Nat) : ℚ :=
  if neg then Rat.neg (mkRat (Int.ofNat n) den) else mkRat (Int.ofNat n) den

/-- Embedding of Python `float(s)` on decimal literals
`[sign] digits [. digits] [(e|E) [sign] digits]`, evaluated exactly as a
rational (binary64 rounding is not modelled; the feed's numeric fields are
plain decimal strings).  `none` is Python's `ValueError`. -/
def pyFloat (s : String) : Option ℚ :=
  let (neg, cs1) : Bool × List Char :=
    match s.data with
    | '+' :: r => (false, r)
    | '-' :: r => (true, r)
    | r => (false, r)
  let ip := cs1.takeWhile Char.isDigit
  let cs2 := cs1.dropWhile Char.isDigit
  let (fp, cs3) : List Char × List Char :=
    match cs2 with
    | '.' :: r => (r.takeWhile Char.isDigit, r.dropWhile Char.isDigit)
    | r => ([], r)
  if ip = [] ∧ fp = [] then none
  else
    let m : Nat := natOfDigits (ip ++ fp)
    let d : Nat := 10 ^ fp.length
    match cs3 with
    | [] => some (signedRat neg m d)
    | e :: r =>
      if e = 'e' ∨ e = 'E' then
        let (eneg, r1) : Bool × List Char :=
          match r with
          | '+' :: r' => (false, r')
          | '-' :: r' => (true, r')
          | r' => (false, r')
        let ed := r1.takeWhile Char.isDigit
        let r2 := r1.dropWhile Char.isDigit
        if ed = [] ∨ r2 ≠ [] then none
        else
          let ev := natOfDigits ed
          some (if eneg then signedRat neg m (d * 10 ^ ev)
                else signedRat neg (m * 10 ^ ev) d)
      else none

/-! ## vnpy collaborator types

`Exchange`, `Product`, `TickData` and `extract_vt_symbol` come from the
external `vnpy.trader` package; the subsets the source uses are embedded
here (the futures venues of this feed, the product values distinguished by
the recorder, the `TickData` fields the source populates). -/

/-- The venue enumeration (`vnpy.trader.constant.Exchange`), restricted to
the Chinese futures venues this feed serves. -/
inductive Exchange
  | CFFEX
  | SHFE
  | CZCE
  | DCE
  | INE
  | GFEX
  deriving DecidableEq, Repr

/-- The string value of the enum member (`Exchange.value`). -/
def Exchange.value : Exchange → String
  | .CFFEX => "CFFEX"
  | .SHFE => "SHFE"
  | .CZCE => "CZCE"
  | .DCE => "DCE"
  | .INE => "INE"
  | .GFEX => "GFEX"

/-- Enum lookup by value, Python `Exchange(s)`; `none` is Python's `ValueError`. -/
def exchangeOfValue (s : String) : Option Exchange :=
  if s = "CFFEX" then some .CFFEX
  else if s = "SHFE" then some .SHFE
  else if s = "CZCE" then some .CZCE
  else if s = "DCE" then some .DCE
  else if s = "INE" then some .INE
  else if s = "GFEX" then some .GFEX
  else none

/-- Embedding of `vnpy.trader.constant.Product`, restricted to the members the recorder
distinguishes (everything other than `FUTURES` is filtered out, so one
representative non-futures member suffices alongside the rest). -/
inductive Product
  | EQUITY
  | FUTURES
  | OPTION
  | SPOT
  deriving DecidableEq, Repr

/-- Embedding of `vnpy.trader.utility.extract_vt_symbol`:
`symbol, exchange_str = vt_symbol.rsplit(".", 1); return symbol,
Exchange(exchange_str)`.  Splits at the *last* dot; a missing dot or an
unknown venue code raises (`.error`). -/
def extract_vt_symbol (vt_symbol : String) : Except String (String × Exchange) :=
  let rev := vt_symbol.data.reverse
  let exchRev := rev.takeWhile (fun c => c != '.')
  let rest := rev.dropWhile (fun c => c != '.')
  match rest with
  | '.' :: symRev =>
    match exchangeOfValue (String.mk exchRev.reverse) with
    | some ex => .ok (String.mk symRev.reverse, ex)
    | none => .error "ValueError: not a valid Exchange"
  | _ => .error "ValueError: rsplit needs a separator"

/-! ## datetime -/

/-- A Python `datetime.datetime` value (naive). -/
structure PyDateTime where
  year : Nat
  month : Nat
  day : Nat
  hour : Nat
  minute : Nat
  second : Nat
  microsecond : Nat
  deriving DecidableEq, Repr

/-- Gregorian leap-year test. -/
def isLeap (y : Nat) : Bool :=
  (y % 4 == 0 && y % 100 != 0) || y % 400 == 0

/-- Days in a month of the proleptic Gregorian calendar. -/
def daysInMonth (y m : Nat) : Nat :=
  if m = 2 then (if isLeap y then 29 else 28)
  else if m = 4 ∨ m = 6 ∨ m = 9 ∨ m = 11 then 30
  else 31

/-- The `datetime` constructor's range validation (`ValueError` outside
the ranges). -/
def mkPyDateTime (y mo d h mi se us : Nat) : Option PyDateTime :=
  if 1 ≤ y ∧ y ≤ 9999 ∧ 1 ≤ mo ∧ mo ≤ 12 ∧ 1 ≤ d ∧ d ≤ daysInMonth y mo
      ∧ h ≤ 23 ∧ mi ≤ 59 ∧ se ≤ 59 ∧ us ≤ 999999 then
    some ⟨y, mo, d, h, mi, se, us⟩
  else none

/-- Consume exactly `n` decimal digits, returning their value and the rest
(`acc` carries the value of already-consumed digits). -/
def takeDigitsAux : Nat → Nat → List Char → Option (Nat × List Char)
  | 0, acc, cs => some (acc, cs)
  | n + 1, acc, cs =>
    match cs with
    | c :: rest =>
      if c.isDigit then takeDigitsAux n (acc * 10 + (c.toNat - 48)) rest
      else none
    | [] => none

/-- Consume exactly `n` decimal digits. -/
def takeDigits (n : Nat) (cs : List Char) : Option (Nat × List Char) :=
  takeDigitsAux n 0 cs

/-- Consume one expected literal character. -/
def expectChar (c : Char) : List Char → Option (List Char)
  | x :: xs => if x = c then some xs else none
  | [] => none

/-- Embedding of `datetime.strptime(s, "%Y%m%d %H:%M:%S.%f")` as used on the composed
tick timestamp: fixed-width numeric fields as the journal produces them
(8-digit date, 2-digit time components; Python's `strptime` additionally
tolerates some 1-digit forms that never occur in this data), `%f` being
1–6 digits right-padded to microseconds.  `none` is `ValueError`. -/
def strptimeTickTimestamp (s : String) : Option PyDateTime := do
  let (y, cs) ← takeDigits 4 s.data
  let (mo, cs) ← takeDigits 2 cs
  let (d, cs) ← takeDigits 2 cs
  let cs ← expectChar ' ' cs
  let (h, cs) ← takeDigits 2 cs
  let cs ← expectChar ':' cs
  let (mi, cs) ← takeDigits 2 cs
  let cs ← expectChar ':' cs
  let (se, cs) ← takeDigits 2 cs
  let cs ← expectChar '.' cs
  let fd := cs.takeWhile Char.isDigit
  let rest := cs.dropWhile Char.isDigit
  if fd = [] ∨ 6 < fd.length ∨ rest ≠ [] then none
  else mkPyDateTime y mo d h mi se (natOfDigits fd * 10 ^ (6 - fd.length))

/-- Embedding of `datetime.strptime(s, "%Y-%m-%d %H:%M:%S")` as used on the injected
`localtime` field (same fixed-width convention). -/
def strptimeLocaltime (s : String) : Option PyDateTime := do
  let (y, cs) ← takeDigits 4 s.data
  let cs ← expectChar '-' cs
  let (mo, cs) ← takeDigits 2 cs
  let cs ← expectChar '-' cs
  let (d, cs) ← takeDigits 2 cs
  let cs ← expectChar ' ' cs
  let (h, cs) ← takeDigits 2 cs
  let cs ← expectChar ':' cs
  let (mi, cs) ← takeDigits 2 cs
  let cs ← expectChar ':' cs
  let (se, cs) ← takeDigits 2 cs
  if cs ≠ [] then none
  else mkPyDateTime y mo d h mi se 0

/-! ## The journal line codec -/

/-- One `'key': 'value'` pair as Python's `repr` renders it inside a dict
display (for strings not containing a single quote, which the feed's
fields never do). -/
def pairChars (kv : String × String) : List Char :=
  '\'' :: kv.1.data ++ '\'' :: ':' :: ' ' :: '\'' :: kv.2.data ++ ['\'']

/-- The pairs of a dict display joined by an ASCII comma and space, as
Python's `str(dict)` joins them. -/
def encodePairs : List (String × String) → List Char
  | [] => []
  | [kv] => pairChars kv
  | kv :: rest => pairChars kv ++ ',' :: ' ' :: encodePairs rest

/-- Python's `str(o_tick)` for a string-valued dict — the journal line the
writer renders via `f"\n{o_tick}"` (without the leading newline): outer
braces, `'key': 'value'` pairs joined by `", "`. -/
def pyDictStr (d : List (String × String)) : String :=
  String.mk ('\x7b' :: encodePairs d ++ ['\x7d'])

/-- The per-segment step of `_parse_line_to_tick`:
`kv = field.split(': '); if len(kv) == 2: tick_dict[kv[0]] = kv[1]` —
the split is on *every* `": "` occurrence, and only segments splitting
into exactly two parts contribute. -/
def insertField (d : List (String × String)) (field : String) :
    List (String × String) :=
  match pySplit field ": " with
  | [k, v] => dictSet d k v
  | _ => d

/-- Embedding of `_parse_line_to_tick`,  defined identically in
`transform_tick_data.py` (lines 105–122) and `load_tick_data.py`
(lines 59–80), up to the decoded mapping: strip every `{`, `}` and
doubled-quote `''` artifact, split on the full-width comma + space
`"， "`, and fold the segments through `insertField`.  Total — malformed
lines degrade to a partial or empty mapping. -/
def parse_line_to_tick (line : String) : List (String × String) :=
  (pySplit (pyReplace (pyReplace (pyReplace line "\x7b" "") "\x7d" "") "''" "")
    "， ").foldl insertField []

/-! ## The journal writer (`record_tick.py`) -/

/-- Python `d[k]` with `KeyError` on a missing key. -/
def reqGet (data : List (String × String)) (k : String) : Except String String :=
  match dictGet data k with
  | some v => .ok v
  | none => .error ("KeyError: " ++ k)

/-- Embedding of `TickRecorder.append_tick_to_file` (lines 131–142).  The
directory is the finite map file-name ↦ file contents; `a+` append-create
mode reads the existing contents (or `""` for a fresh file) and the write
appends a newline followed by `str(o_tick)` — including before the very
first record of a file. -/
def append_tick_to_file (files : List (String × String))
    (o_tick : List (String × String)) :
    Except String (List (String × String)) := do
  let instr ← reqGet o_tick "InstrumentID"
  let exch ← reqGet o_tick "ExchangeID"
  let file_name := instr ++ "." ++ exch ++ ".txt"
  let old := (dictGet files file_name).getD ""
  return dictSet files file_name (old ++ "\n" ++ pyDictStr o_tick)

/-! ## The tick assembler
(`TickToBarConverter._generate_tick`, `TickFileLoader._dict_to_tick`) -/

/-- The canonical tick record (`vnpy.trader.object.TickData`), restricted
to the fields the source populates; the level 2–5 depth fields default to
`0` exactly as in `vnpy`. -/
structure TickData where
  symbol : String
  exchange : Exchange
  datetime : PyDateTime
  volume : ℚ
  turnover : ℚ
  open_interest : ℚ
  last_price : ℚ
  limit_up : ℚ
  limit_down : ℚ
  open_price : ℚ
  high_price : ℚ
  low_price : ℚ
  pre_close : ℚ
  bid_price_1 : ℚ
  bid_price_2 : ℚ
  bid_price_3 : ℚ
  bid_price_4 : ℚ
  bid_price_5 : ℚ
  ask_price_1 : ℚ
  ask_price_2 : ℚ
  ask_price_3 : ℚ
  ask_price_4 : ℚ
  ask_price_5 : ℚ
  bid_volume_1 : ℚ
  bid_volume_2 : ℚ
  bid_volume_3 : ℚ
  bid_volume_4 : ℚ
  bid_volume_5 : ℚ
  ask_volume_1 : ℚ
  ask_volume_2 : ℚ
  ask_volume_3 : ℚ
  ask_volume_4 : ℚ
  ask_volume_5 : ℚ
  gateway_name : String
  localtime : PyDateTime

/-- Python `float(data[k])`: `KeyError` on a missing key, `ValueError` on an
unparseable number. -/
def reqFloat (data : List (String × String)) (k : String) : Except String ℚ := do
  let s ← reqGet data k
  match pyFloat s with
  | some q => .ok q
  | none => .error ("ValueError: could not convert string to float: " ++ s)

/-- Turn an optional parse result into `Except` (Python `ValueError`). -/
def ofOption {α : Type} (x : Option α) (msg : String) : Except String α :=
  match x with
  | some a => .ok a
  | none => .error msg

/-- Parse failure of the composed exchange timestamp is a hard error
(`datetime.strptime` raising `ValueError`). -/
def parseTickTimestamp (timestamp : String) : Except String PyDateTime :=
  ofOption (strptimeTickTimestamp timestamp)
    ("ValueError: time data '" ++ timestamp ++ "' does not match format")

/-- Parse failure of the `localtime` field is a hard error
(`datetime.strptime` raising `ValueError`). -/
def parseLocaltime (s : String) : Except String PyDateTime :=
  ofOption (strptimeLocaltime s)
    ("ValueError: time data '" ++ s ++ "' does not match format")

/-- The `TickData(...)` constructor call of `_generate_tick` /
`_dict_to_tick`: level 1 fields and sanitized prices, level 2–5 depth at
the `vnpy` default `0`.  (`se` is the `(symbol, exchange)` pair from
`extract_vt_symbol`.) -/
def mkBaseTick (se : String × Exchange) (dt : PyDateTime)
    (volume turnover open_interest lastRaw limit_up limit_down openRaw
      highRaw lowRaw preCloseRaw bp1 ap1 bv1 av1 : ℚ)
    (ltdt : PyDateTime) : TickData :=
  { symbol := se.1
    exchange := se.2
    datetime := dt
    volume := volume
    turnover := turnover
    open_interest := open_interest
    last_price := adjust_price lastRaw
    limit_up := limit_up
    limit_down := limit_down
    open_price := adjust_price openRaw
    high_price := adjust_price highRaw
    low_price := adjust_price lowRaw
    pre_close := adjust_price preCloseRaw
    bid_price_1 := adjust_price bp1
    bid_price_2 := 0
    bid_price_3 := 0
    bid_price_4 := 0
    bid_price_5 := 0
    ask_price_1 := adjust_price ap1
    ask_price_2 := 0
    ask_price_3 := 0
    ask_price_4 := 0
    ask_price_5 := 0
    bid_volume_1 := bv1
    bid_volume_2 := 0
    bid_volume_3 := 0
    bid_volume_4 := 0
    bid_volume_5 := 0
    ask_volume_1 := av1
    ask_volume_2 := 0
    ask_volume_3 := 0
    ask_volume_4 := 0
    ask_volume_5 := 0
    gateway_name := "local_gateway"
    localtime := ltdt }

/-- The block of sixteen `tick.xxx = ...` depth-field assignments of
`_generate_tick` / `_dict_to_tick` (prices sanitized, volumes raw). -/
def addDepth (t : TickData)
    (bp2 bp3 bp4 bp5 ap2 ap3 ap4 ap5 bv2 bv3 bv4 bv5 av2 av3 av4 av5 : ℚ) :
    TickData :=
  { t with
    bid_price_2 := adjust_price bp2
    bid_price_3 := adjust_price bp3
    bid_price_4 := adjust_price bp4
    bid_price_5 := adjust_price bp5
    ask_price_2 := adjust_price ap2
    ask_price_3 := adjust_price ap3
    ask_price_4 := adjust_price ap4
    ask_price_5 := adjust_price ap5
    bid_volume_2 := bv2
    bid_volume_3 := bv3
    bid_volume_4 := bv4
    bid_volume_5 := bv5
    ask_volume_2 := av2
    ask_volume_3 := av3
    ask_volume_4 := av4
    ask_volume_5 := av5 }

/-- The session-date resolution of `_generate_tick` / `_dict_to_tick`
(transform_tick_data.py lines 133–137, load_tick_data.py lines 93–97):
`if not data.get("ActionDay") or exchange == Exchange.DCE:
date_str = data['localtime'].split(' ')[0].replace('-', '')
else: date_str = data["ActionDay"]`. -/
def resolve_date_str (data : List (String × String)) (exchange : Exchange) :
    Except String String :=
  if (dictGet data "ActionDay").getD "" = "" ∨ exchange = Exchange.DCE then
    match dictGet data "localtime" with
    | none => .error "KeyError: localtime"
    | some lt => .ok (pyReplace (((pySplit lt " ").headD "")) "-" "")
  else
    .ok ((dictGet data "ActionDay").getD "")

/-- Embedding of `TickToBarConverter._generate_tick`
(transform_tick_data.py lines 124–187); `TickFileLoader._dict_to_tick`
(load_tick_data.py lines 82–148) is the same computation without the final
push to the bar generator.  `.ok none` is the discarded
(falsy-`UpdateTime`) early return; `.error` carries a propagated Python
exception; `.ok (some tick)` is a constructed record. -/
def generate_tick (vt_symbol : String) (data : List (String × String)) :
    Except String (Option TickData) :=
  if truthyStr (dictGet data "UpdateTime") = false then .ok none
  else do
    let se ← extract_vt_symbol vt_symbol
    let date_str ← resolve_date_str data se.2
    let ut ← reqGet data "UpdateTime"
    let ums ← reqGet data "UpdateMillisec"
    let dt ← parseTickTimestamp (date_str ++ " " ++ ut ++ "." ++ ums)
    let volume ← reqFloat data "Volume"
    let turnover ← reqFloat data "Turnover"
    let open_interest ← reqFloat data "OpenInterest"
    let lastRaw ← reqFloat data "LastPrice"
    let limit_up ← reqFloat data "UpperLimitPrice"
    let limit_down ← reqFloat data "LowerLimitPrice"
    let openRaw ← reqFloat data "OpenPrice"
    let highRaw ← reqFloat data "HighestPrice"
    let lowRaw ← reqFloat data "LowestPrice"
    let preCloseRaw ← reqFloat data "PreClosePrice"
    let bp1 ← reqFloat data "BidPrice1"
    let ap1 ← reqFloat data "AskPrice1"
    let bv1 ← reqFloat data "BidVolume1"
    let av1 ← reqFloat data "AskVolume1"
    let lts ← reqGet data "localtime"
    let ltdt ← parseLocaltime lts
    if truthyStr (dictGet data "BidVolume2") || truthyStr (dictGet data "AskVolume2") then do
      let bp2 ← reqFloat data "BidPrice2"
      let bp3 ← reqFloat data "BidPrice3"
      let bp4 ← reqFloat data "BidPrice4"
      let bp5 ← reqFloat data "BidPrice5"
      let ap2 ← reqFloat data "AskPrice2"
      let ap3 ← reqFloat data "AskPrice3"
      let ap4 ← reqFloat data "AskPrice4"
      let ap5 ← reqFloat data "AskPrice5"
      let bv2 ← reqFloat data "BidVolume2"
      let bv3 ← reqFloat data "BidVolume3"
      let bv4 ← reqFloat data "BidVolume4"
      let bv5 ← reqFloat data "BidVolume5"
      let av2 ← reqFloat data "AskVolume2"
      let av3 ← reqFloat data "AskVolume3"
      let av4 ← reqFloat data "AskVolume4"
      let av5 ← reqFloat data "AskVolume5"
      Except.ok (some (addDepth
        (mkBaseTick se dt volume turnover open_interest lastRaw limit_up
          limit_down openRaw highRaw lowRaw preCloseRaw bp1 ap1 bv1 av1 ltdt)
        bp2 bp3 bp4 bp5 ap2 ap3 ap4 ap5 bv2 bv3 bv4 bv5 av2 av3 av4 av5))
    else
      Except.ok (some
        (mkBaseTick se dt volume turnover open_interest lastRaw limit_up
          limit_down openRaw highRaw lowRaw preCloseRaw bp1 ap1 bv1 av1 ltdt))

/-- The ticks the converter forwards to the aggregation sink
(`self.bg.update_tick(tick)`, reached only when a record was
constructed) for one decoded mapping. -/
def pushed_ticks (vt_symbol : String) (data : List (String × String)) :
    List TickData :=
  match generate_tick vt_symbol data with
  | .ok (some t) => [t]
  | _ => []

/-! ## The tick recorder's event handlers (`record_tick.py`) -/

/-- The fields of `vnpy.trader.object.ContractData` the recorder reads. -/
structure ContractData where
  symbol : String
  exchange : Exchange
  product : Product
  deriving DecidableEq, Repr

/-- The recorder's mutable state: the `symbol ↦ ContractData` cache
`self.contracts` and the journal directory (file-name ↦ contents). -/
structure RecorderState where
  contracts : List (String × ContractData)
  files : List (String × String)
  deriving DecidableEq, Repr

/-- Embedding of `TickRecorder.handle_contract_event` (lines 91–109):
non-futures contracts are ignored; a futures contract is cached under its
symbol and a subscription request `(symbol, exchange)` is sent to the
gateway (modelled as the returned request list). -/
def handle_contract_event (st : RecorderState) (contract : ContractData) :
    RecorderState × List (String × Exchange) :=
  if contract.product ≠ Product.FUTURES then (st, [])
  else
    ({ st with contracts := dictSet st.contracts contract.symbol contract },
     [(contract.symbol, contract.exchange)])

/-- Embedding of `TickRecorder.handle_original_tick` (lines 111–129).
`now` stands for the wall-clock string
`datetime.now().strftime('%Y-%m-%d %H:%M:%S')` (real time is a parameter
of the embedding).  A missing `InstrumentID`, or one with no cached
contract, returns with the state untouched; otherwise the tick is
augmented with `ExchangeID` and `localtime` and appended to the
per-instrument journal file. -/
def handle_original_tick (st : RecorderState)
    (o_tick : List (String × String)) (now : String) :
    Except String RecorderState :=
  match dictGet o_tick "InstrumentID" with
  | none => .ok st
  | some symbol =>
    match dictGet st.contracts symbol with
    | none => .ok st
    | some contract =>
      let o1 := dictSet o_tick "ExchangeID" contract.exchange.value
      let o2 := dictSet o1 "localtime" now
      match append_tick_to_file st.files o2 with
      | .ok files => .ok { st with files := files }
      | .error e => .error e

/-! ## Concrete fixtures for the claim theorems -/

/-- The exact 309-digit decimal rendering of `sys.float_info.max`, used as
a feed field value (in Python, `float(maxFloatStr)` is exactly
`sys.float_info.max`). -/
def maxFloatStr : String :=
  "179769313486231570814527423731704356798070567525844996598917476803157260780028538760589558632766878171540458953514382464234321326889464182768467546703537516986049910576551282076245490090389328944075868508455133942304583236903222948165808559332123348274797826204144723168738177180919299881250404026184124858368"

/-- The specification's §8 scenario snapshot: `IC2412` at `09:30:00.500`,
`ActionDay` `20241210`, `LastPrice` carrying the max-float sentinel, all
required numeric fields present, no level 2–5 depth fields. -/
def snapC7 : List (String × String) :=
  [("InstrumentID", "IC2412"), ("UpdateTime", "09:30:00"),
   ("UpdateMillisec", "500"), ("ActionDay", "20241210"),
   ("LastPrice", maxFloatStr),
   ("Volume", "100"), ("Turnover", "0"), ("OpenInterest", "0"),
   ("UpperLimitPrice", "6000"), ("LowerLimitPrice", "4000"),
   ("OpenPrice", "5000"), ("HighestPrice", "5100"), ("LowestPrice", "4900"),
   ("PreClosePrice", "4950"), ("BidPrice1", "4999"), ("AskPrice1", "5001"),
   ("BidVolume1", "10"), ("AskVolume1", "12"),
   ("localtime", "2024-12-10 09:30:00")]

/-- The record `generate_tick "IC2412.CFFEX" snapC7` assembles. -/
def tickC7 : TickData :=
  { symbol := "IC2412"
    exchange := Exchange.CFFEX
    datetime := ⟨2024, 12, 10, 9, 30, 0, 500000⟩
    volume := mkRat 100 1
    turnover := mkRat 0 1
    open_interest := mkRat 0 1
    last_price := 0
    limit_up := mkRat 6000 1
    limit_down := mkRat 4000 1
    open_price := mkRat 5000 1
    high_price := mkRat 5100 1
    low_price := mkRat 4900 1
    pre_close := mkRat 4950 1
    bid_price_1 := mkRat 4999 1
    bid_price_2 := 0
    bid_price_3 := 0
    bid_price_4 := 0
    bid_price_5 := 0
    ask_price_1 := mkRat 5001 1
    ask_price_2 := 0
    ask_price_3 := 0
    ask_price_4 := 0
    ask_price_5 := 0
    bid_volume_1 := mkRat 10 1
    bid_volume_2 := 0
    bid_volume_3 := 0
    bid_volume_4 := 0
    bid_volume_5 := 0
    ask_volume_1 := mkRat 12 1
    ask_volume_2 := 0
    ask_volume_3 := 0
    ask_volume_4 := 0
    ask_volume_5 := 0
    gateway_name := "local_gateway"
    localtime := ⟨2024, 12, 10, 9, 30, 0, 0⟩ }

/-- A complete snapshot whose `UpperLimitPrice` carries the max-float
sentinel (everything else as in the §8 scenario, `LastPrice` ordinary). -/
def snapLimitUpSentinel : List (String × String) :=
  dictSet (dictSet snapC7 "LastPrice" "5050") "UpperLimitPrice" maxFloatStr

/-- A complete snapshot with a level-2 depth *price* present but both
level-2 depth volumes absent. -/
def snapPartialDepth : List (String × String) :=
  dictSet snapC7 "BidPrice2" "4998"

/-! ## General lemmas -/

/-- Sanity check tying the `floatMax` literal to the binary64 formula
`(2^53 - 1) * 2^971`. -/
theorem floatMax_eq_pow : floatMax = ((2 ^ 53 - 1) * 2 ^ 971 : ℚ) := by
  unfold floatMax; norm_num

/-- The sanitizer never outputs the sentinel itself. -/
theorem adjust_price_ne_floatMax (q : ℚ) : adjust_price q ≠ floatMax := by
  unfold adjust_price
  by_cases h : q = floatMax
  · rw [if_pos h]; decide
  · rw [if_neg h]; exact h

/-- Inversion for a successful `Except` bind. -/
theorem except_bind_ok {α β : Type} {x : Except String α}
    {f : α → Except String β} {b : β} (h : x >>= f = .ok b) :
    ∃ a, x = .ok a ∧ f a = .ok b := by
  cases x with
  | ok a => exact ⟨a, rfl, h⟩
  | error e => exact absurd h (by simp [Bind.bind, Except.bind])

/-! ## Claim C8 — the sanitizer -/

/-- **C8**: the sanitizer is a pure total function on the float model: it
maps the platform max-float sentinel to exactly `0`, and every other
input — including negative values — to itself. -/
theorem claim_C8_sanitizer_identity_except_sentinel (q : ℚ) (h : q ≠ floatMax) :
    adjust_price floatMax = 0 ∧ adjust_price q = q := by
  constructor
  · unfold adjust_price; rw [if_pos rfl]
  · unfold adjust_price; rw [if_neg h]

/-- Witness for C8 at the negative input `-5/2`. -/
theorem claim_C8_sanitizer_identity_except_sentinel_witness :
    mkRat (-5) 2 ≠ floatMax ∧
      (adjust_price floatMax = 0 ∧ adjust_price (mkRat (-5) 2) = mkRat (-5) 2) :=
  ⟨by decide, claim_C8_sanitizer_identity_except_sentinel (mkRat (-5) 2) (by decide)⟩

/-! ## Claim C6 — missing update time discards the snapshot -/

/-- **C6**: when the `UpdateTime` field is absent or empty, the assembler
returns no record and no error, and nothing is forwarded to the
aggregation sink. -/
theorem claim_C6_no_update_time_discards (vt : String)
    (data : List (String × String))
    (h : dictGet data "UpdateTime" = none ∨ dictGet data "UpdateTime" = some "") :
    generate_tick vt data = .ok none ∧ pushed_ticks vt data = [] := by
  have ht : truthyStr (dictGet data "UpdateTime") = false := by
    rcases h with h | h <;> rw [h] <;> rfl
  have hg : generate_tick vt data = .ok none := by
    unfold generate_tick; rw [if_pos ht]
  exact ⟨hg, by unfold pushed_ticks; rw [hg]⟩

/-- Witness for C6 on a snapshot with an empty `UpdateTime`. -/
theorem claim_C6_no_update_time_discards_witness :
    (dictGet [("UpdateTime", "")] "UpdateTime" = none
      ∨ dictGet [("UpdateTime", "")] "UpdateTime" = some "") ∧
    (generate_tick "IC2412.CFFEX" [("UpdateTime", "")] = .ok none
      ∧ pushed_ticks "IC2412.CFFEX" [("UpdateTime", "")] = []) :=
  ⟨Or.inr rfl,
   claim_C6_no_update_time_discards "IC2412.CFFEX" [("UpdateTime", "")] (Or.inr rfl)⟩

/-! ## Claim C10 — the recorder writes only cached futures instruments -/

/-- **C10**: a raw tick whose `InstrumentID` is missing or not in the
contract cache leaves the recorder state (cache and journal files)
untouched and appends nothing; and the contract handler caches (and
subscribes) nothing for a non-futures contract, so only futures
instruments ever enter the cache. -/
theorem claim_C10_uncached_tick_is_ignored :
    (∀ (st : RecorderState) (o_tick : List (String × String)) (now : String),
        (∀ s, dictGet o_tick "InstrumentID" = some s →
          dictGet st.contracts s = none) →
        handle_original_tick st o_tick now = .ok st)
    ∧ (∀ (st : RecorderState) (c : ContractData), c.product ≠ Product.FUTURES →
        handle_contract_event st c = (st, [])) := by
  constructor
  · intro st o_tick now h
    unfold handle_original_tick
    cases hi : dictGet o_tick "InstrumentID" with
    | none => rfl
    | some s => simp [h s hi]
  · intro st c h
    unfold handle_contract_event
    rw [if_pos h]

/-- Witness for C10: an unknown instrument against an empty cache, and an
option (non-futures) contract event. -/
theorem claim_C10_uncached_tick_is_ignored_witness :
    handle_original_tick ⟨[], []⟩ [("InstrumentID", "IC2412")] "2024-12-10 09:30:00"
      = .ok ⟨[], []⟩
    ∧ handle_contract_event ⟨[], []⟩ ⟨"AP303", Exchange.CZCE, Product.OPTION⟩
      = (⟨[], []⟩, []) :=
  ⟨claim_C10_uncached_tick_is_ignored.1 ⟨[], []⟩ [("InstrumentID", "IC2412")]
      "2024-12-10 09:30:00" (fun _ _ => rfl),
   claim_C10_uncached_tick_is_ignored.2 ⟨[], []⟩
      ⟨"AP303", Exchange.CZCE, Product.OPTION⟩ (by decide)⟩

/-! ## Claim C5 — session-date resolution -/

/-- Setting one key leaves other keys' lookups unchanged. -/
theorem dictGet_dictSet_ne {α : Type} (d : List (String × α)) (k k' : String)
    (v : α) (h : k ≠ k') : dictGet (dictSet d k v) k' = dictGet d k' := by
  induction d with
  | nil => simp [dictSet, dictGet, h]
  | cons kv rest ih =>
    obtain ⟨k0, v0⟩ := kv
    by_cases h0 : k0 = k
    · subst h0; simp [dictSet, dictGet, h]
    · by_cases h1 : k0 = k'
      · subst h1; simp [dictSet, dictGet, h0]
      · simp [dictSet, dictGet, h0, h1, ih]

/-- Splitting `d ++ c :: t` on the single character `c`, where `d` avoids
`c`, starts with the segment `cur.reverse ++ d`. -/
theorem splitOnAux_single_first (c : Char) (d : List Char) :
    ∀ (t cur : List Char) (fuel : Nat), d.length + 1 + t.length ≤ fuel →
      (∀ x ∈ d, x ≠ c) →
      ∃ rest, splitOnAux [c] fuel (d ++ c :: t) cur = (cur.reverse ++ d) :: rest := by
  induction d with
  | nil =>
    intro t cur fuel hf hd
    cases fuel with
    | zero => simp at hf
    | succ n =>
      refine ⟨splitOnAux [c] n t [], ?_⟩
      simp [splitOnAux, List.isPrefixOf]
  | cons x d ih =>
    intro t cur fuel hf hd
    cases fuel with
    | zero => simp at hf
    | succ n =>
      have hcx : (c == x) = false :=
        beq_eq_false_iff_ne.mpr (fun hh => hd x (by simp) hh.symm)
      obtain ⟨rest, hr⟩ := ih t (x :: cur) n
        (by simp at hf ⊢; omega) (fun y hy => hd y (by simp [hy]))
      refine ⟨rest, ?_⟩
      show splitOnAux [c] (n + 1) (x :: (d ++ c :: t)) cur
        = (cur.reverse ++ x :: d) :: rest
      simp only [splitOnAux, List.isPrefixOf, hcx, Bool.false_and,
        Bool.false_eq_true, if_false, hr]
      simp

/-- Python `(D + " " + T).split(' ')[0]` is `D` when `D` contains no
space. -/
theorem pySplit_space_head (D T : String) (hD : ∀ x ∈ D.data, x ≠ ' ') :
    (pySplit (D ++ " " ++ T) " ").headD "" = D := by
  unfold pySplit
  rw [if_neg (by decide)]
  have hdata : (D ++ " " ++ T).data = D.data ++ ' ' :: T.data := by
    show (D.data ++ [' ']) ++ T.data = D.data ++ ' ' :: T.data
    simp
  rw [hdata]
  obtain ⟨rest, hr⟩ := splitOnAux_single_first ' ' D.data T.data []
    (D.data ++ ' ' :: T.data).length (by simp; omega) hD
  rw [hr]
  show String.mk (([] : List Char).reverse ++ D.data) = D
  simp

/-- When the `ActionDay`-empty-or-DCE condition holds and `localtime` is
a date, a space and a time, the resolver returns the date with hyphens
removed. -/
theorem resolve_date_str_localtime (data : List (String × String))
    (ex : Exchange) (D T : String) (hD : ∀ x ∈ D.data, x ≠ ' ')
    (hcond : (dictGet data "ActionDay").getD "" = "" ∨ ex = Exchange.DCE)
    (hlt : dictGet data "localtime" = some (D ++ " " ++ T)) :
    resolve_date_str data ex = .ok (pyReplace D "-" "") := by
  unfold resolve_date_str
  rw [if_pos hcond, hlt]
  show Except.ok (pyReplace ((pySplit (D ++ " " ++ T) " ").headD "") "-" "") = _
  rw [pySplit_space_head D T hD]

/-- **C5**: session-date resolution.  (1) For the night-rollover venue
family (DCE) the resolved date is the date component of the local receipt
time with hyphens removed, and the session-date field is ignored —
overwriting `ActionDay` with any value changes nothing; (2) for any other
venue a present, non-empty `ActionDay` is used verbatim; (3) otherwise
the date component of the local receipt time is used. -/
theorem claim_C5_session_date_resolution :
    (∀ (data : List (String × String)) (D T a : String),
        (∀ x ∈ D.data, x ≠ ' ') →
        dictGet data "localtime" = some (D ++ " " ++ T) →
        resolve_date_str data Exchange.DCE = .ok (pyReplace D "-" "")
          ∧ resolve_date_str (dictSet data "ActionDay" a) Exchange.DCE
              = resolve_date_str data Exchange.DCE)
    ∧ (∀ (data : List (String × String)) (ex : Exchange) (a : String),
        ex ≠ Exchange.DCE → dictGet data "ActionDay" = some a → a ≠ "" →
        resolve_date_str data ex = .ok a)
    ∧ (∀ (data : List (String × String)) (ex : Exchange) (D T : String),
        ex ≠ Exchange.DCE →
        (dictGet data "ActionDay" = none ∨ dictGet data "ActionDay" = some "") →
        (∀ x ∈ D.data, x ≠ ' ') →
        dictGet data "localtime" = some (D ++ " " ++ T) →
        resolve_date_str data ex = .ok (pyReplace D "-" "")) := by
  refine ⟨?_, ?_, ?_⟩
  · intro data D T a hD hlt
    have hlt2 : dictGet (dictSet data "ActionDay" a) "localtime"
        = some (D ++ " " ++ T) := by
      rw [dictGet_dictSet_ne data "ActionDay" "localtime" a (by decide), hlt]
    constructor
    · exact resolve_date_str_localtime data Exchange.DCE D T hD (Or.inr rfl) hlt
    · rw [resolve_date_str_localtime data Exchange.DCE D T hD (Or.inr rfl) hlt,
        resolve_date_str_localtime (dictSet data "ActionDay" a) Exchange.DCE D T hD
          (Or.inr rfl) hlt2]
  · intro data ex a hex ha hne
    have hcond : ¬((dictGet data "ActionDay").getD "" = "" ∨ ex = Exchange.DCE) := by
      rw [ha]; simp [Option.getD]; exact ⟨hne, hex⟩
    unfold resolve_date_str
    rw [if_neg hcond, ha]
    rfl
  · intro data ex D T hex hAD hD hlt
    have hcond : (dictGet data "ActionDay").getD "" = "" ∨ ex = Exchange.DCE := by
      rcases hAD with h | h <;> rw [h] <;> exact Or.inl rfl
    exact resolve_date_str_localtime data ex D T hD hcond hlt

/-- Witness for C5: a DCE snapshot with a (would-be next-day) `ActionDay`
resolving to the local date, and a CFFEX snapshot resolving to its
`ActionDay` verbatim. -/
theorem claim_C5_session_date_resolution_witness :
    resolve_date_str [("ActionDay", "20241211"), ("localtime", "2024-12-10 21:05:00")]
        Exchange.DCE = .ok (pyReplace "2024-12-10" "-" "")
    ∧ resolve_date_str [("ActionDay", "20230915"), ("localtime", "2024-12-10 21:05:00")]
        Exchange.CFFEX = .ok "20230915" :=
  ⟨(claim_C5_session_date_resolution.1
      [("ActionDay", "20241211"), ("localtime", "2024-12-10 21:05:00")]
      "2024-12-10" "21:05:00" "ignored" (by decide) (by decide)).1,
   claim_C5_session_date_resolution.2.1
      [("ActionDay", "20230915"), ("localtime", "2024-12-10 21:05:00")]
      Exchange.CFFEX "20230915" (by decide) (by decide) (by decide)⟩

/-! ## Claims C2 and C3 — sanitization and depth handling on assembly -/

/-- A successful `float(data[k])` needs the key to be present. -/
theorem reqFloat_ok_isSome {data : List (String × String)} {k : String} {q : ℚ}
    (h : reqFloat data k = .ok q) : (dictGet data k).isSome = true := by
  cases hd : dictGet data k with
  | some s => rfl
  | none =>
    exfalso
    unfold reqFloat reqGet at h
    rw [hd] at h
    simp [Bind.bind, Except.bind] at h

/-- Inversion of a successful assembly: the record is the base record
(with the depth condition false and all depth fields at their defaults),
or — when the level-2 depth-volume trigger fired — the base record with
all sixteen depth fields populated from successfully parsed fields. -/
theorem generate_tick_ok_shape (vt : String) (data : List (String × String))
    (t : TickData) (h : generate_tick vt data = .ok (some t)) :
    ∃ (se : String × Exchange) (dt ltdt : PyDateTime)
      (volume turnover oi lastRaw lu ld openRaw highRaw lowRaw pcRaw
        bp1 ap1 bv1 av1 : ℚ),
      ((truthyStr (dictGet data "BidVolume2")
          || truthyStr (dictGet data "AskVolume2")) = false
        ∧ t = mkBaseTick se dt volume turnover oi lastRaw lu ld openRaw
            highRaw lowRaw pcRaw bp1 ap1 bv1 av1 ltdt)
      ∨ ((truthyStr (dictGet data "BidVolume2")
          || truthyStr (dictGet data "AskVolume2")) = true
        ∧ ∃ bp2 bp3 bp4 bp5 ap2 ap3 ap4 ap5 bv2 bv3 bv4 bv5 av2 av3 av4 av5 : ℚ,
            reqFloat data "BidPrice2" = .ok bp2
            ∧ reqFloat data "BidPrice3" = .ok bp3
            ∧ reqFloat data "BidPrice4" = .ok bp4
            ∧ reqFloat data "BidPrice5" = .ok bp5
            ∧ reqFloat data "AskPrice2" = .ok ap2
            ∧ reqFloat data "AskPrice3" = .ok ap3
            ∧ reqFloat data "AskPrice4" = .ok ap4
            ∧ reqFloat data "AskPrice5" = .ok ap5
            ∧ reqFloat data "BidVolume2" = .ok bv2
            ∧ reqFloat data "BidVolume3" = .ok bv3
            ∧ reqFloat data "BidVolume4" = .ok bv4
            ∧ reqFloat data "BidVolume5" = .ok bv5
            ∧ reqFloat data "AskVolume2" = .ok av2
            ∧ reqFloat data "AskVolume3" = .ok av3
            ∧ reqFloat data "AskVolume4" = .ok av4
            ∧ reqFloat data "AskVolume5" = .ok av5
            ∧ t = addDepth
                (mkBaseTick se dt volume turnover oi lastRaw lu ld openRaw
                  highRaw lowRaw pcRaw bp1 ap1 bv1 av1 ltdt)
                bp2 bp3 bp4 bp5 ap2 ap3 ap4 ap5 bv2 bv3 bv4 bv5
                av2 av3 av4 av5) := by
  unfold generate_tick at h
  by_cases hu : truthyStr (dictGet data "UpdateTime") = false
  · rw [if_pos hu] at h; exact absurd h (by simp)
  · rw [if_neg hu] at h
    obtain ⟨se, hse, h⟩ := except_bind_ok h
    obtain ⟨ds, hds, h⟩ := except_bind_ok h
    obtain ⟨ut, hut, h⟩ := except_bind_ok h
    obtain ⟨ums, hums, h⟩ := except_bind_ok h
    obtain ⟨dt, hdt, h⟩ := except_bind_ok h
    obtain ⟨volume, hv, h⟩ := except_bind_ok h
    obtain ⟨turnover, htu, h⟩ := except_bind_ok h
    obtain ⟨oi, hoi, h⟩ := except_bind_ok h
    obtain ⟨lastRaw, hlast, h⟩ := except_bind_ok h
    obtain ⟨lu, hlu, h⟩ := except_bind_ok h
    obtain ⟨ld, hld, h⟩ := except_bind_ok h
    obtain ⟨openRaw, hopen, h⟩ := except_bind_ok h
    obtain ⟨highRaw, hhigh, h⟩ := except_bind_ok h
    obtain ⟨lowRaw, hlow, h⟩ := except_bind_ok h
    obtain ⟨pcRaw, hpc, h⟩ := except_bind_ok h
    obtain ⟨bp1, hbp1, h⟩ := except_bind_ok h
    obtain ⟨ap1, hap1, h⟩ := except_bind_ok h
    obtain ⟨bv1, hbv1, h⟩ := except_bind_ok h
    obtain ⟨av1, hav1, h⟩ := except_bind_ok h
    obtain ⟨lts, hlts, h⟩ := except_bind_ok h
    obtain ⟨ltdt, hltdt, h⟩ := except_bind_ok h
    refine ⟨se, dt, ltdt, volume, turnover, oi, lastRaw, lu, ld, openRaw,
      highRaw, lowRaw, pcRaw, bp1, ap1, bv1, av1, ?_⟩
    by_cases hdep : (truthyStr (dictGet data "BidVolume2")
        || truthyStr (dictGet data "AskVolume2")) = true
    · rw [if_pos hdep] at h
      obtain ⟨bp2, hbp2, h⟩ := except_bind_ok h
      obtain ⟨bp3, hbp3, h⟩ := except_bind_ok h
      obtain ⟨bp4, hbp4, h⟩ := except_bind_ok h
      obtain ⟨bp5, hbp5, h⟩ := except_bind_ok h
      obtain ⟨ap2, hap2, h⟩ := except_bind_ok h
      obtain ⟨ap3, hap3, h⟩ := except_bind_ok h
      obtain ⟨ap4, hap4, h⟩ := except_bind_ok h
      obtain ⟨ap5, hap5, h⟩ := except_bind_ok h
      obtain ⟨bv2, hbv2, h⟩ := except_bind_ok h
      obtain ⟨bv3, hbv3, h⟩ := except_bind_ok h
      obtain ⟨bv4, hbv4, h⟩ := except_bind_ok h
      obtain ⟨bv5, hbv5, h⟩ := except_bind_ok h
      obtain ⟨av2, hav2, h⟩ := except_bind_ok h
      obtain ⟨av3, hav3, h⟩ := except_bind_ok h
      obtain ⟨av4, hav4, h⟩ := except_bind_ok h
      obtain ⟨av5, hav5, h⟩ := except_bind_ok h
      have ht := (Option.some.inj (Except.ok.inj h)).symm
      exact Or.inr ⟨hdep, bp2, bp3, bp4, bp5, ap2, ap3, ap4, ap5,
        bv2, bv3, bv4, bv5, av2, av3, av4, av5,
        hbp2, hbp3, hbp4, hbp5, hap2, hap3, hap4, hap5,
        hbv2, hbv3, hbv4, hbv5, hav2, hav3, hav4, hav5, ht⟩
    · rw [if_neg hdep] at h
      have ht := (Option.some.inj (Except.ok.inj h)).symm
      exact Or.inl ⟨by simpa using hdep, ht⟩

/-- **C2** (amended): in every assembled record, the sanitized price
fields — last, open, high, low, pre-close and all bid/ask prices of
levels 1–5 — never carry the max-float sentinel (depth prices are
sanitized when populated and default to `0` otherwise).  The claim's
inclusion of the limit prices fails: `limit_up` / `limit_down` are parsed
without sanitization (see the counterexample). -/
theorem claim_C2_sanitized_prices_never_sentinel (vt : String)
    (data : List (String × String)) (t : TickData)
    (h : generate_tick vt data = .ok (some t)) :
    t.last_price ≠ floatMax ∧ t.open_price ≠ floatMax
    ∧ t.high_price ≠ floatMax ∧ t.low_price ≠ floatMax
    ∧ t.pre_close ≠ floatMax
    ∧ t.bid_price_1 ≠ floatMax ∧ t.bid_price_2 ≠ floatMax
    ∧ t.bid_price_3 ≠ floatMax ∧ t.bid_price_4 ≠ floatMax
    ∧ t.bid_price_5 ≠ floatMax
    ∧ t.ask_price_1 ≠ floatMax ∧ t.ask_price_2 ≠ floatMax
    ∧ t.ask_price_3 ≠ floatMax ∧ t.ask_price_4 ≠ floatMax
    ∧ t.ask_price_5 ≠ floatMax := by
  obtain ⟨se, dt, ltdt, v, tu, oi, lr, lu, ld, opr, hir, lor, pc, b1, a1, w1, x1,
    hcase⟩ := generate_tick_ok_shape vt data t h
  have hz : (0 : ℚ) ≠ floatMax := by decide
  rcases hcase with ⟨hdep, ht⟩ | ⟨hdep, bp2, bp3, bp4, bp5, ap2, ap3, ap4, ap5,
      bv2, bv3, bv4, bv5, av2, av3, av4, av5,
      h1, h2, h3, h4, h5, h6, h7, h8, h9, h10, h11, h12, h13, h14, h15, h16, ht⟩
  · subst ht
    simp only [mkBaseTick]
    repeat' apply And.intro
    all_goals first
      | exact adjust_price_ne_floatMax _
      | exact hz
  · subst ht
    simp only [addDepth, mkBaseTick]
    repeat' apply And.intro
    all_goals exact adjust_price_ne_floatMax _

set_option maxRecDepth 1000000 in
/-- Counterexample to C2 as stated: a snapshot whose `UpperLimitPrice` is
the max-float sentinel assembles successfully into a record whose
`limit_up` *is* the sentinel (not `0`): the limit prices are parsed
without the sanitizer. -/
theorem claim_C2_limit_up_propagates_sentinel :
    dictGet snapLimitUpSentinel "UpperLimitPrice" = some maxFloatStr
    ∧ (generate_tick "IC2412.CFFEX" snapLimitUpSentinel).map
        (Option.map fun t => t.limit_up) = .ok (some floatMax)
    ∧ floatMax ≠ 0 := by
  refine ⟨by decide, by decide, by decide⟩

set_option maxRecDepth 1000000 in
/-- Witness for C2 (amended) on the §8 scenario snapshot. -/
theorem claim_C2_sanitized_prices_never_sentinel_witness :
    generate_tick "IC2412.CFFEX" snapC7 = .ok (some tickC7)
    ∧ (tickC7.last_price ≠ floatMax ∧ tickC7.open_price ≠ floatMax
      ∧ tickC7.high_price ≠ floatMax ∧ tickC7.low_price ≠ floatMax
      ∧ tickC7.pre_close ≠ floatMax
      ∧ tickC7.bid_price_1 ≠ floatMax ∧ tickC7.bid_price_2 ≠ floatMax
      ∧ tickC7.bid_price_3 ≠ floatMax ∧ tickC7.bid_price_4 ≠ floatMax
      ∧ tickC7.bid_price_5 ≠ floatMax
      ∧ tickC7.ask_price_1 ≠ floatMax ∧ tickC7.ask_price_2 ≠ floatMax
      ∧ tickC7.ask_price_3 ≠ floatMax ∧ tickC7.ask_price_4 ≠ floatMax
      ∧ tickC7.ask_price_5 ≠ floatMax) :=
  ⟨rfl, claim_C2_sanitized_prices_never_sentinel "IC2412.CFFEX" snapC7 tickC7 rfl⟩

/-- **C3** (amended): the depth trigger is the *truthiness of the level-2
depth volumes only* (`BidVolume2` or `AskVolume2` present and non-empty),
not of any level-2 depth field.  When neither fires, every level 2–5
depth field of the assembled record stays at its `0` default — even if
depth *price* fields are present (see the counterexample) — and no error
is raised; when one fires, a successful assembly implies all sixteen
level 2–5 fields were present (a missing one raises `KeyError`, a hard
error). -/
theorem claim_C3_depth_all_or_nothing (vt : String)
    (data : List (String × String)) (t : TickData)
    (h : generate_tick vt data = .ok (some t)) :
    (truthyStr (dictGet data "BidVolume2") = false
        ∧ truthyStr (dictGet data "AskVolume2") = false →
      t.bid_price_2 = 0 ∧ t.bid_price_3 = 0 ∧ t.bid_price_4 = 0
      ∧ t.bid_price_5 = 0
      ∧ t.ask_price_2 = 0 ∧ t.ask_price_3 = 0 ∧ t.ask_price_4 = 0
      ∧ t.ask_price_5 = 0
      ∧ t.bid_volume_2 = 0 ∧ t.bid_volume_3 = 0 ∧ t.bid_volume_4 = 0
      ∧ t.bid_volume_5 = 0
      ∧ t.ask_volume_2 = 0 ∧ t.ask_volume_3 = 0 ∧ t.ask_volume_4 = 0
      ∧ t.ask_volume_5 = 0)
    ∧ (truthyStr (dictGet data "BidVolume2") = true
        ∨ truthyStr (dictGet data "AskVolume2") = true →
      (dictGet data "BidPrice2").isSome = true
      ∧ (dictGet data "BidPrice3").isSome = true
      ∧ (dictGet data "BidPrice4").isSome = true
      ∧ (dictGet data "BidPrice5").isSome = true
      ∧ (dictGet data "AskPrice2").isSome = true
      ∧ (dictGet data "AskPrice3").isSome = true
      ∧ (dictGet data "AskPrice4").isSome = true
      ∧ (dictGet data "AskPrice5").isSome = true
      ∧ (dictGet data "BidVolume2").isSome = true
      ∧ (dictGet data "BidVolume3").isSome = true
      ∧ (dictGet data "BidVolume4").isSome = true
      ∧ (dictGet data "BidVolume5").isSome = true
      ∧ (dictGet data "AskVolume2").isSome = true
      ∧ (dictGet data "AskVolume3").isSome = true
      ∧ (dictGet data "AskVolume4").isSome = true
      ∧ (dictGet data "AskVolume5").isSome = true) := by
  obtain ⟨se, dt, ltdt, v, tu, oi, lr, lu, ld, opr, hir, lor, pc, b1, a1, w1, x1,
    hcase⟩ := generate_tick_ok_shape vt data t h
  rcases hcase with ⟨hdep, ht⟩ | ⟨hdep, bp2, bp3, bp4, bp5, ap2, ap3, ap4, ap5,
      bv2, bv3, bv4, bv5, av2, av3, av4, av5,
      h1, h2, h3, h4, h5, h6, h7, h8, h9, h10, h11, h12, h13, h14, h15, h16, ht⟩
  · subst ht
    constructor
    · intro _
      simp only [mkBaseTick]
      repeat' apply And.intro
      all_goals trivial
    · intro hor
      exfalso
      rcases hor with h1 | h1 <;> rw [h1] at hdep <;> simp at hdep
  · subst ht
    constructor
    · intro hand
      exfalso
      rw [hand.1, hand.2] at hdep
      simp at hdep
    · intro _
      exact ⟨reqFloat_ok_isSome h1, reqFloat_ok_isSome h2,
        reqFloat_ok_isSome h3, reqFloat_ok_isSome h4, reqFloat_ok_isSome h5,
        reqFloat_ok_isSome h6, reqFloat_ok_isSome h7, reqFloat_ok_isSome h8,
        reqFloat_ok_isSome h9, reqFloat_ok_isSome h10, reqFloat_ok_isSome h11,
        reqFloat_ok_isSome h12, reqFloat_ok_isSome h13, reqFloat_ok_isSome h14,
        reqFloat_ok_isSome h15, reqFloat_ok_isSome h16⟩

set_option maxRecDepth 1000000 in
/-- Counterexample to C3 as stated: a snapshot with the level-2 depth
field `BidPrice2` present (value `"4998"`) but the depth volumes absent
assembles *successfully* with the depth left unpopulated
(`bid_price_2 = 0`, not `4998`) — the assembler neither populates the
16-field set nor raises for this partially-present depth. -/
theorem claim_C3_depth_price_alone_is_ignored :
    dictGet snapPartialDepth "BidPrice2" = some "4998"
    ∧ (generate_tick "IC2412.CFFEX" snapPartialDepth).map
        (Option.map fun t => t.bid_price_2) = .ok (some 0) := by
  refine ⟨by decide, by decide⟩

set_option maxRecDepth 1000000 in
/-- Witness for C3 (amended) on the §8 scenario snapshot (depth absent). -/
theorem claim_C3_depth_all_or_nothing_witness :
    generate_tick "IC2412.CFFEX" snapC7 = .ok (some tickC7)
    ∧ ((truthyStr (dictGet snapC7 "BidVolume2") = false
          ∧ truthyStr (dictGet snapC7 "AskVolume2") = false →
        tickC7.bid_price_2 = 0 ∧ tickC7.bid_price_3 = 0 ∧ tickC7.bid_price_4 = 0
        ∧ tickC7.bid_price_5 = 0
        ∧ tickC7.ask_price_2 = 0 ∧ tickC7.ask_price_3 = 0 ∧ tickC7.ask_price_4 = 0
        ∧ tickC7.ask_price_5 = 0
        ∧ tickC7.bid_volume_2 = 0 ∧ tickC7.bid_volume_3 = 0
        ∧ tickC7.bid_volume_4 = 0 ∧ tickC7.bid_volume_5 = 0
        ∧ tickC7.ask_volume_2 = 0 ∧ tickC7.ask_volume_3 = 0
        ∧ tickC7.ask_volume_4 = 0 ∧ tickC7.ask_volume_5 = 0)
      ∧ (truthyStr (dictGet snapC7 "BidVolume2") = true
          ∨ truthyStr (dictGet snapC7 "AskVolume2") = true →
        (dictGet snapC7 "BidPrice2").isSome = true
        ∧ (dictGet snapC7 "BidPrice3").isSome = true
        ∧ (dictGet snapC7 "BidPrice4").isSome = true
        ∧ (dictGet snapC7 "BidPrice5").isSome = true
        ∧ (dictGet snapC7 "AskPrice2").isSome = true
        ∧ (dictGet snapC7 "AskPrice3").isSome = true
        ∧ (dictGet snapC7 "AskPrice4").isSome = true
        ∧ (dictGet snapC7 "AskPrice5").isSome = true
        ∧ (dictGet snapC7 "BidVolume2").isSome = true
        ∧ (dictGet snapC7 "BidVolume3").isSome = true
        ∧ (dictGet snapC7 "BidVolume4").isSome = true
        ∧ (dictGet snapC7 "BidVolume5").isSome = true
        ∧ (dictGet snapC7 "AskVolume2").isSome = true
        ∧ (dictGet snapC7 "AskVolume3").isSome = true
        ∧ (dictGet snapC7 "AskVolume4").isSome = true
        ∧ (dictGet snapC7 "AskVolume5").isSome = true)) :=
  ⟨rfl, claim_C3_depth_all_or_nothing "IC2412.CFFEX" snapC7 tickC7 rfl⟩

/-! ## Claim C4 — the decoder's segment handling -/

/-- A list is free of `sep` exactly when no suffix starts with `sep`. -/
theorem hasInfix_false_iff (sep : List Char) :
    ∀ ys : List Char, hasInfix sep ys = false
      ↔ ∀ i, sep.isPrefixOf (List.drop i ys) = false := by
  intro ys
  induction ys with
  | nil =>
    cases sep with
    | nil => simp [hasInfix, List.isPrefixOf]
    | cons s ss => simp [hasInfix, List.isPrefixOf]
  | cons y ys ih =>
    simp only [hasInfix, Bool.or_eq_false_iff, ih]
    constructor
    · rintro ⟨h0, hrest⟩ i
      cases i with
      | zero => exact h0
      | succ j => simpa using hrest j
    · intro hall
      exact ⟨hall 0, fun j => by simpa using hall (j + 1)⟩

/-- If no occurrence of `sep` starts inside `cur.reverse` (viewed inside
`cur.reverse ++ rest`), then `cur.reverse` itself is free of `sep`. -/
theorem reverse_no_infix_of_no_start (sep : List Char) (hsep : sep ≠ [])
    (cur rest : List Char)
    (hcur : ∀ i, i < cur.length →
      sep.isPrefixOf (List.drop i (cur.reverse ++ rest)) = false) :
    hasInfix sep cur.reverse = false := by
  rw [hasInfix_false_iff]
  intro i
  by_cases hi : i < cur.length
  · by_contra hcontra
    have htrue : sep.isPrefixOf (List.drop i cur.reverse) = true := by
      cases hb : sep.isPrefixOf (List.drop i cur.reverse) with
      | true => rfl
      | false => exact absurd hb hcontra
    have hext := hcur i hi
    rw [List.drop_append_of_le_length
      (by rw [List.length_reverse]; exact Nat.le_of_lt hi)] at hext
    have hpre : sep <+: List.drop i cur.reverse :=
      List.isPrefixOf_iff_prefix.mp htrue
    have hpre2 : sep <+: List.drop i cur.reverse ++ rest :=
      hpre.trans (List.prefix_append _ _)
    have htrue2 : sep.isPrefixOf (List.drop i cur.reverse ++ rest) = true :=
      List.isPrefixOf_iff_prefix.mpr hpre2
    simp [htrue2] at hext
  · rw [List.drop_eq_nil_of_le
      (by rw [List.length_reverse]; exact Nat.le_of_not_lt hi)]
    cases sep with
    | nil => exact absurd rfl hsep
    | cons s ss => rfl

/-- Every segment produced by the splitter is free of the separator:
an occurrence inside a segment would have been a split point. -/
theorem splitOnAux_parts_no_infix (sep : List Char) (hsep : sep ≠ []) :
    ∀ (fuel : Nat) (xs cur : List Char), xs.length ≤ fuel →
      (∀ i, i < cur.length →
        sep.isPrefixOf (List.drop i (cur.reverse ++ xs)) = false) →
      ∀ p ∈ splitOnAux sep fuel xs cur, hasInfix sep p = false := by
  intro fuel
  induction fuel with
  | zero =>
    intro xs cur hlen hcur p hp
    have hxs : xs = [] := List.eq_nil_of_length_eq_zero (Nat.le_zero.mp hlen)
    subst hxs
    simp only [splitOnAux, List.mem_singleton] at hp
    subst hp
    exact reverse_no_infix_of_no_start sep hsep cur [] hcur
  | succ n ih =>
    intro xs cur hlen hcur p hp
    cases xs with
    | nil =>
      simp only [splitOnAux, List.mem_singleton] at hp
      subst hp
      exact reverse_no_infix_of_no_start sep hsep cur [] hcur
    | cons x xs =>
      rw [splitOnAux] at hp
      by_cases hpre : sep.isPrefixOf (x :: xs) = true
      · rw [if_pos hpre] at hp
        rcases List.mem_cons.mp hp with hp | hp
        · subst hp
          exact reverse_no_infix_of_no_start sep hsep cur (x :: xs) hcur
        · refine ih (List.drop sep.length (x :: xs)) [] ?_ (by intro i hi; simp at hi) p hp
          have hlsep : 1 ≤ sep.length := by
            cases sep with
            | nil => exact absurd rfl hsep
            | cons s ss => simp
          have := List.length_drop sep.length (x :: xs)
          simp only [List.length_cons] at hlen this ⊢
          omega
      · rw [if_neg hpre] at hp
        refine ih xs (x :: cur) (by simpa using Nat.le_of_succ_le_succ (by simpa using hlen)) ?_ p hp
        intro i hi
        have heq : (x :: cur).reverse ++ xs = cur.reverse ++ (x :: xs) := by simp
        rw [heq]
        simp only [List.length_cons] at hi
        rcases Nat.lt_succ_iff_lt_or_eq.mp hi with hlt | heq2
        · exact hcur i hlt
        · subst heq2
          have hdrop : List.drop cur.length (cur.reverse ++ (x :: xs)) = x :: xs := by
            rw [show cur.length = cur.reverse.length by rw [List.length_reverse]]
            exact List.drop_left _ _
          rw [hdrop]
          cases hb : sep.isPrefixOf (x :: xs) with
          | true => exact absurd hb hpre
          | false => rfl

/-- Every element of a Python `split` on a non-empty separator is free of
the separator. -/
theorem pySplit_parts_no_infix (s sep : String) (hsep : sep.data ≠ [])
    (p : String) (hp : p ∈ pySplit s sep) : strHasInfix p sep = false := by
  unfold pySplit at hp
  rw [if_neg hsep] at hp
  obtain ⟨q, hq, rfl⟩ := List.mem_map.mp hp
  show hasInfix sep.data q = false
  exact splitOnAux_parts_no_infix sep.data hsep s.data.length s.data []
    (Nat.le_refl _) (by intro i hi; simp at hi) q hq

/-- Membership after a Python dict assignment. -/
theorem mem_dictSet {α : Type} {p : String × α} (d : List (String × α))
    (k : String) (v : α) (h : p ∈ dictSet d k v) : p ∈ d ∨ p = (k, v) := by
  induction d with
  | nil => simpa [dictSet] using h
  | cons kv rest ih =>
    obtain ⟨k0, v0⟩ := kv
    unfold dictSet at h
    by_cases h0 : k0 = k
    · rw [if_pos h0] at h
      rcases List.mem_cons.mp h with h | h
      · exact Or.inr h
      · exact Or.inl (List.mem_cons_of_mem _ h)
    · rw [if_neg h0] at h
      rcases List.mem_cons.mp h with h | h
      · exact Or.inl (by rw [h]; exact List.mem_cons_self _ _)
      · rcases ih h with h | h
        · exact Or.inl (List.mem_cons_of_mem _ h)
        · exact Or.inr h

/-- Every pair in the decoder's fold comes from the accumulator or from a
segment whose `": "`-split has exactly two parts. -/
theorem mem_insertField_fold (fields : List String) :
    ∀ (acc : List (String × String)) (p : String × String),
      p ∈ fields.foldl insertField acc →
      p ∈ acc ∨ ∃ f ∈ fields, pySplit f ": " = [p.1, p.2] := by
  induction fields with
  | nil => intro acc p hp; exact Or.inl hp
  | cons f fs ih =>
    intro acc p hp
    rcases ih (insertField acc f) p hp with hacc | ⟨g, hg, hsplit⟩
    · unfold insertField at hacc
      split at hacc
      · next k v heq =>
          rcases mem_dictSet acc k v hacc with h | h
          · exact Or.inl h
          · exact Or.inr ⟨f, List.mem_cons_self _ _, by rw [heq, h]⟩
      · next => exact Or.inl hacc
    · exact Or.inr ⟨g, List.mem_cons_of_mem _ hg, hsplit⟩

/-- **C4** (amended): the decoder strips braces and doubled-quote
artifacts, splits on the full-width comma + space, and a pair `(k, v)`
enters the decoded mapping only via a segment whose split on *every*
`": "` occurrence has exactly two parts — consequently neither the key
nor the value of any decoded pair contains `": "`.  A segment whose value
itself contains `": "` therefore contributes nothing (it is silently
skipped, see the counterexample), unlike the claimed first-occurrence
split; decoding is total and never raises. -/
theorem claim_C4_decoded_pairs_have_two_part_segments (line k v : String)
    (h : (k, v) ∈ parse_line_to_tick line) :
    (∃ f ∈ pySplit
        (pyReplace (pyReplace (pyReplace line "\x7b" "") "\x7d" "") "''" "")
        "， ", pySplit f ": " = [k, v])
    ∧ strHasInfix k ": " = false ∧ strHasInfix v ": " = false := by
  unfold parse_line_to_tick at h
  rcases mem_insertField_fold _ [] (k, v) h with hnil | ⟨f, hf, hsplit⟩
  · exact absurd hnil (List.not_mem_nil _)
  · have hk : k ∈ pySplit f ": " := by rw [hsplit]; exact List.mem_cons_self _ _
    have hv : v ∈ pySplit f ": " := by
      rw [hsplit]; exact List.mem_cons_of_mem _ (List.mem_cons_self _ _)
    exact ⟨⟨f, hf, hsplit⟩,
      pySplit_parts_no_infix f ": " (by decide) k hk,
      pySplit_parts_no_infix f ": " (by decide) v hv⟩

/-- Counterexample to C4 as stated: on the line whose single segment's
value contains `": "`, the segment is *skipped* (the decoded mapping is
empty) — it does not contribute a pair split at the first `": "`. -/
theorem claim_C4_colon_in_value_is_skipped :
    parse_line_to_tick "\x7b'k': 'a: b'\x7d" = [] := by decide

/-- Witness for C4 (amended) on a well-formed single-pair line. -/
theorem claim_C4_decoded_pairs_have_two_part_segments_witness :
    ("'a'", "'1'") ∈ parse_line_to_tick "\x7b'a': '1'\x7d"
    ∧ ((∃ f ∈ pySplit
          (pyReplace (pyReplace (pyReplace "\x7b'a': '1'\x7d" "\x7b" "") "\x7d" "") "''" "")
          "， ", pySplit f ": " = ["'a'", "'1'"])
      ∧ strHasInfix "'a'" ": " = false ∧ strHasInfix "'1'" ": " = false) :=
  ⟨by decide,
   claim_C4_decoded_pairs_have_two_part_segments "\x7b'a': '1'\x7d" "'a'" "'1'"
     (by decide)⟩

/-! ## Claim C1 — the encode/decode round trip (refuted) -/

/-- **C1** (refuting the claim as stated): decoding the journal line the
writer encodes for the two-field snapshot
`[("InstrumentID", "IC2412"), ("UpdateTime", "09:30:00")]` yields the
*empty* mapping, not the snapshot: Python's `str(dict)` joins pairs with
an ASCII `", "` while the parser splits only on the full-width `"， "`
(so the whole line stays one segment whose `": "`-split has four parts and
is dropped); the parser also never strips the single quotes `repr` adds. -/
theorem claim_C1_roundtrip_fails_on_code :
    parse_line_to_tick
        (pyDictStr [("InstrumentID", "IC2412"), ("UpdateTime", "09:30:00")]) = []
    ∧ ([] : List (String × String))
        ≠ [("InstrumentID", "IC2412"), ("UpdateTime", "09:30:00")] := by
  constructor
  · decide
  · decide

/-! ## Claim C9 — the journal writer's wire format (refuted) -/

/-- **C9** (refuting the claim as stated): the writer does append, to the
`{InstrumentID}.{ExchangeID}.txt` file opened in append-create mode, a
newline followed by the encoded line — including before the very first
record — with outer braces, single-quoted keys and values joined by
`": "`; but the pairs are joined by an ASCII comma plus space (Python's
`str(dict)`), and the produced line contains no full-width comma at all,
contrary to the claimed legacy wire format. -/
theorem claim_C9_writer_uses_ascii_comma :
    append_tick_to_file [] [("InstrumentID", "IC2412"), ("ExchangeID", "CFFEX")]
      = .ok [("IC2412.CFFEX.txt",
              "\n\x7b'InstrumentID': 'IC2412', 'ExchangeID': 'CFFEX'\x7d")]
    ∧ strHasInfix "\n\x7b'InstrumentID': 'IC2412', 'ExchangeID': 'CFFEX'\x7d" "，"
      = false := by
  constructor
  · decide
  · decide

/-! ## Claim C7 — the §8 concrete scenario -/

set_option maxRecDepth 1000000 in
/-- **C7**: on the §8 scenario snapshot (with the sentinel `LastPrice`
given by its exact decimal expansion, whose float value is exactly
`sys.float_info.max`), assembly with `vt_symbol = "IC2412.CFFEX"` yields a
record whose `last_price` is `0` and whose exchange datetime is
`2024-12-10T09:30:00.500000` — the 3-digit `UpdateMillisec` `"500"` is
right-padded to `500000` microseconds. -/
theorem claim_C7_concrete_assembly :
    pyFloat maxFloatStr = some floatMax
    ∧ (generate_tick "IC2412.CFFEX" snapC7).map
        (Option.map fun t => (t.last_price, t.datetime))
      = .ok (some (0, ⟨2024, 12, 10, 9, 30, 0, 500000⟩)) := by
  constructor
  · decide
  · decide

end TickRec
